import Mathlib

/-!
Verification of the multi-library class loader facade
(`src/include/multi_library_class_loader.h`, namespace `plugins`).

The header declares the facade `MultiLibraryClassLoader`: a registry
`active_class_loaders_ : std::map<LibraryPath, plugins::ClassLoader*>`, an
on-demand flag, and template creation/enumeration methods whose bodies are in
the header itself.  The single-library `plugins::ClassLoader` (from
`class_loader.h`) is an external collaborator; it and the out-of-line method
bodies (`loadLibrary`, `getClassLoaderForLibrary`, `isLibraryAvailable`,
`getRegisteredLibraries`, `getAllAvailableClassLoaders`) are modelled from the
spec and from the header's own doc comments, as marked on each definition.

Templates over the base class `Base` are modelled by passing the capability
as an explicit string argument.  C++ exceptions are modelled by `Except`;
the undefined behaviour of dereferencing a NULL `ClassLoader*` is modelled by
a dedicated error value `PluginError.NullDereference`.
-/

namespace plugins

/-- Modelled from the spec: the external Library Loader collaborator
(`plugins::ClassLoader`, declared in `class_loader.h`, which is not under
`src/`).  Spec section 3 and 6: it holds a loaded-library handle and a factory
table keyed by (capability, class name), and exposes availability queries,
creation and enumeration.  The factory table is represented as an association
list from capability to the list of class names the library provides under
that capability. -/
structure ClassLoader where
  libraryPath : String
  factoryTable : List (String × List String)
deriving DecidableEq

/-- Modelled from the spec: `availableClasses(capability) → sequence<name>` of
the Library Loader (spec section 6). -/
def ClassLoader.getAvailableClasses (l : ClassLoader) (capability : String) :
    List String :=
  match l.factoryTable.lookup capability with
  | some cs => cs
  | none => []

/-- Modelled from the spec: `classAvailable(capability, name) → bool` of the
Library Loader (spec section 6): true iff the loader reports `name` under
`capability`. -/
def ClassLoader.isClassAvailable (l : ClassLoader)
    (capability className : String) : Bool :=
  (l.getAvailableClasses capability).contains className

/-- A plugin instance, tagged with the library whose factory produced it, the
concrete class name, and the ownership mode (managed = reference counted,
unmanaged = caller owned). -/
structure PluginInstance where
  library : String
  className : String
  managed : Bool
deriving DecidableEq

/-- The error taxonomy of the layer.  `ClassNotFoundError` models
`plugins::CreateClassException` (thrown at header lines 75 and 111);
`LibraryNotFoundError` and `LoadError` are the spec's names (section 7);
`NullDereference` models the undefined behaviour of applying `->` to a NULL
`ClassLoader*`. -/
inductive PluginError where
  | ClassNotFoundError (msg : String)
  | LibraryNotFoundError (msg : String)
  | LoadError (msg : String)
  | NullDereference (msg : String)
deriving DecidableEq

deriving instance DecidableEq for Except

/-- Modelled from the spec: `createManaged(capability, name)` of the Library
Loader (spec section 6); produces a managed instance, fails with
`ClassNotFoundError` when the loader does not provide the class. -/
def ClassLoader.createInstance (l : ClassLoader)
    (capability className : String) : Except PluginError PluginInstance :=
  if l.isClassAvailable capability className then
    Except.ok ⟨l.libraryPath, className, true⟩
  else
    Except.error (PluginError.ClassNotFoundError
      ("ClassLoader: could not create instance of class " ++ className))

/-- Modelled from the spec: `createUnmanaged(capability, name)` of the Library
Loader (spec section 6); produces a caller-owned instance, fails with
`ClassNotFoundError` when the loader does not provide the class. -/
def ClassLoader.createUnmanagedInstance (l : ClassLoader)
    (capability className : String) : Except PluginError PluginInstance :=
  if l.isClassAvailable capability className then
    Except.ok ⟨l.libraryPath, className, false⟩
  else
    Except.error (PluginError.ClassNotFoundError
      ("ClassLoader: could not create instance of class " ++ className))

/-- The facade state (header lines 219-222): the on-demand flag
`enable_ondemand_loadunload_` and the registry `active_class_loaders_`,
a `std::map<LibraryPath, plugins::ClassLoader*>` (`LibraryToClassLoaderMap`,
header line 40).  The map is represented by its entries in its iteration
order; a `std::map` iterates in ascending key order, and the class declares
no other registry state, so registration order is not part of the state. -/
structure MultiLibraryClassLoader where
  enable_ondemand_loadunload : Bool
  active_class_loaders : List (String × ClassLoader)
deriving DecidableEq

/-- The constructor `MultiLibraryClassLoader(bool)` (header line 50): records
the on-demand flag; the registry starts empty. -/
def MultiLibraryClassLoader.init (enable_ondemand_loadunload : Bool) :
    MultiLibraryClassLoader :=
  ⟨enable_ondemand_loadunload, []⟩

/-- `isOnDemandLoadUnloadEnabled` (header line 204): returns the stored flag. -/
def MultiLibraryClassLoader.isOnDemandLoadUnloadEnabled
    (s : MultiLibraryClassLoader) : Bool :=
  s.enable_ondemand_loadunload

/-- `getClassLoaderForLibrary` (declared at header line 211, body not under
`src/`).  Its header doc comment fully specifies it: a handle to the class
loader corresponding to the runtime library, `== NULL if not found`.  Modelled
as lookup in `active_class_loaders_`, with NULL as `none`. -/
def MultiLibraryClassLoader.getClassLoaderForLibrary
    (s : MultiLibraryClassLoader) (library_path : String) :
    Option ClassLoader :=
  s.active_class_loaders.lookup library_path

/-- `getAllAvailableClassLoaders` (declared at header line 216, body not under
`src/`): gets all class loaders loaded within scope.  Modelled as the
begin-to-end traversal of `active_class_loaders_`, the only registry state the
class declares; a `std::map` traverses its entries in ascending key order. -/
def MultiLibraryClassLoader.getAllAvailableClassLoaders
    (s : MultiLibraryClassLoader) : List ClassLoader :=
  s.active_class_loaders.map Prod.snd

/-- Lexicographic comparison of character lists, the order of
`std::string::operator<` that a `std::map<std::string, ...>` sorts its keys
by. -/
def charListLt : List Char → List Char → Bool
  | _, [] => false
  | [], _ :: _ => true
  | a :: as, b :: bs =>
    if a < b then true
    else if b < a then false
    else charListLt as bs

/-- Lexicographic comparison of strings (`std::string::operator<`). -/
def strLt (a b : String) : Bool := charListLt a.data b.data

/-- Insertion into the `std::map` representation: a new key goes to its sorted
position; `operator[]` on an existing key leaves the entry in place (and
`loadLibrary` does not even reach the insert when the key is present, since
registration is idempotent per spec section 4.1). -/
def mapInsert (path : String) (l : ClassLoader) :
    List (String × ClassLoader) → List (String × ClassLoader)
  | [] => [(path, l)]
  | (k, v) :: rest =>
    if strLt path k = true then (path, l) :: (k, v) :: rest
    else if path = k then (k, v) :: rest
    else (k, v) :: mapInsert path l rest

/-- The external world: which factory table the library file at each path
provides.  `loadLibrary(path)` constructs `new ClassLoader(path, ...)`, whose
table is determined by the library file, i.e. by this environment. -/
def LibraryWorld : Type := String → List (String × List String)

/-- Modelled from the spec: `loadLibrary` (declared at header line 191, body
not under `src/`).  Spec section 4.1 `register(id)`: idempotent; loads the
Loader for `id` if absent, no-op otherwise.  The new loader's factory table
comes from the external world. -/
def MultiLibraryClassLoader.loadLibrary (w : LibraryWorld)
    (s : MultiLibraryClassLoader) (library_path : String) :
    MultiLibraryClassLoader :=
  if (s.getClassLoaderForLibrary library_path).isSome then s
  else
    ⟨s.enable_ondemand_loadunload,
      mapInsert library_path ⟨library_path, w library_path⟩
        s.active_class_loaders⟩

/-- Modelled from the spec: `isLibraryAvailable` (declared at header line 146,
body not under `src/`).  Header doc: true if the library is loaded; spec
section 4.1 `lookup(id)` returns the Loader or an explicit not-found result.
Modelled as: the registry lookup succeeds. -/
def MultiLibraryClassLoader.isLibraryAvailable (s : MultiLibraryClassLoader)
    (library_path : String) : Bool :=
  (s.getClassLoaderForLibrary library_path).isSome

/-- Modelled from the spec: `getRegisteredLibraries` (declared at header line
185, body not under `src/`).  Spec section 4.1 `listAll()`: the sequence of
currently registered identifiers.  Modelled as the keys of
`active_class_loaders_` in map-iteration order. -/
def MultiLibraryClassLoader.getRegisteredLibraries
    (s : MultiLibraryClassLoader) : List String :=
  s.active_class_loaders.map Prod.fst

/-- The scan loop of `createInstance<Base>(class_name)` (header lines 67-75):
walk the loader vector, return the first loader's instance whose
`isClassAvailable` holds, otherwise throw `CreateClassException` with the
message of line 75. -/
def createInstanceLoop (capability className : String) :
    List ClassLoader → Except PluginError PluginInstance
  | [] => Except.error (PluginError.ClassNotFoundError
      ("MultiLibraryClassLoader: Could not create class of type " ++
        className ++ " as no class loader exists."))
  | current :: rest =>
    if current.isClassAvailable capability className then
      current.createInstance capability className
    else
      createInstanceLoop capability className rest

/-- The scan loop of `createUnmanagedInstance<Base>(class_name)` (header lines
103-111), with the message of line 111. -/
def createUnmanagedInstanceLoop (capability className : String) :
    List ClassLoader → Except PluginError PluginInstance
  | [] => Except.error (PluginError.ClassNotFoundError
      ("MultiLibraryClassLoader: Could not create class of type " ++
        className))
  | current :: rest =>
    if current.isClassAvailable capability className then
      current.createUnmanagedInstance capability className
    else
      createUnmanagedInstanceLoop capability className rest

/-- `createInstance<Base>(class_name)` (header lines 64-76): scans
`getAllAvailableClassLoaders()`, first match wins. -/
def MultiLibraryClassLoader.createInstance (s : MultiLibraryClassLoader)
    (capability className : String) : Except PluginError PluginInstance :=
  createInstanceLoop capability className s.getAllAvailableClassLoaders

/-- `createUnmanagedInstance<Base>(class_name)` (header lines 100-112). -/
def MultiLibraryClassLoader.createUnmanagedInstance
    (s : MultiLibraryClassLoader) (capability className : String) :
    Except PluginError PluginInstance :=
  createUnmanagedInstanceLoop capability className s.getAllAvailableClassLoaders

/-- `createInstance<Base>(class_name, library_path)` (header lines 86-90):
`return(getClassLoaderForLibrary(library_path)->createInstance<Base>(class_name));`
The returned pointer is dereferenced without a NULL check; when the library is
not registered this is the undefined behaviour modelled by
`PluginError.NullDereference`. -/
def MultiLibraryClassLoader.createInstanceFromLibrary
    (s : MultiLibraryClassLoader) (capability className library_path : String) :
    Except PluginError PluginInstance :=
  match s.getClassLoaderForLibrary library_path with
  | none => Except.error (PluginError.NullDereference
      "getClassLoaderForLibrary returned NULL and was dereferenced")
  | some l => l.createInstance capability className

/-- `createUnmanagedInstance<Base>(class_name, library_path)` (header lines
122-126): same unchecked dereference as the managed overload. -/
def MultiLibraryClassLoader.createUnmanagedInstanceFromLibrary
    (s : MultiLibraryClassLoader) (capability className library_path : String) :
    Except PluginError PluginInstance :=
  match s.getClassLoaderForLibrary library_path with
  | none => Except.error (PluginError.NullDereference
      "getClassLoaderForLibrary returned NULL and was dereferenced")
  | some l => l.createUnmanagedInstance capability className

/-- `getAvailableClasses<Base>()` (header lines 153-165): start from an empty
vector and append each loader's class list in scan order. -/
def MultiLibraryClassLoader.getAvailableClasses (s : MultiLibraryClassLoader)
    (capability : String) : List String :=
  s.getAllAvailableClassLoaders.foldl
    (fun acc current => acc ++ current.getAvailableClasses capability) []

/-- `isClassAvailable<Base>(class_name)` (header lines 134-139): compute
`getAvailableClasses<Base>()` and search it with `std::find`. -/
def MultiLibraryClassLoader.isClassAvailable (s : MultiLibraryClassLoader)
    (capability className : String) : Bool :=
  (s.getAvailableClasses capability).contains className

/-- `getAvailableClassesForLibrary<Base>(library_path)` (header lines 171-179):
look up the loader; the `if(loader)` guard leaves the vector empty when the
lookup returned NULL. -/
def MultiLibraryClassLoader.getAvailableClassesForLibrary
    (s : MultiLibraryClassLoader) (capability library_path : String) :
    List String :=
  match s.getClassLoaderForLibrary library_path with
  | none => []
  | some l => l.getAvailableClasses capability

/-- State-transformer form of `createInstance<Base>(class_name)`: the body
(header lines 64-76) only reads the registry through
`getAllAvailableClassLoaders()` and writes no member, so the post-state is the
pre-state. -/
def MultiLibraryClassLoader.createInstanceRun (s : MultiLibraryClassLoader)
    (capability className : String) :
    Except PluginError PluginInstance × MultiLibraryClassLoader :=
  (s.createInstance capability className, s)

/-- State-transformer form of `createUnmanagedInstance<Base>(class_name)`
(header lines 100-112): the body writes no member. -/
def MultiLibraryClassLoader.createUnmanagedInstanceRun
    (s : MultiLibraryClassLoader) (capability className : String) :
    Except PluginError PluginInstance × MultiLibraryClassLoader :=
  (s.createUnmanagedInstance capability className, s)

/-- State-transformer form of `createInstance<Base>(class_name, library_path)`
(header lines 86-90): the body is a lookup plus a dereference and writes no
member. -/
def MultiLibraryClassLoader.createInstanceFromLibraryRun
    (s : MultiLibraryClassLoader) (capability className library_path : String) :
    Except PluginError PluginInstance × MultiLibraryClassLoader :=
  (s.createInstanceFromLibrary capability className library_path, s)

/-- State-transformer form of
`createUnmanagedInstance<Base>(class_name, library_path)` (header lines
122-126): the body writes no member. -/
def MultiLibraryClassLoader.createUnmanagedInstanceFromLibraryRun
    (s : MultiLibraryClassLoader) (capability className library_path : String) :
    Except PluginError PluginInstance × MultiLibraryClassLoader :=
  (s.createUnmanagedInstanceFromLibrary capability className library_path, s)

/-- Concrete external world used in examples: libraries `libA` and `libB` both
provide class `X` under capability `base`. -/
def demoWorld : LibraryWorld := fun path =>
  if path = "libA" then [("base", ["X"])]
  else if path = "libB" then [("base", ["X"])]
  else []

/-- Concrete external world used in examples: `libA` provides `Y`, `libB`
provides `X`, both under capability `base`. -/
def demoWorldDistinct : LibraryWorld := fun path =>
  if path = "libA" then [("base", ["Y"])]
  else if path = "libB" then [("base", ["X"])]
  else []

/-- Registry state obtained by loading `libA` and then `libB` from
`demoWorld`. -/
def stateAB : MultiLibraryClassLoader :=
  ((MultiLibraryClassLoader.init false).loadLibrary demoWorld
    "libA").loadLibrary demoWorld "libB"

/-- Registry state obtained by loading `libB` first and then `libA` from
`demoWorld`: registration order is `libB`, `libA`. -/
def stateBA : MultiLibraryClassLoader :=
  ((MultiLibraryClassLoader.init false).loadLibrary demoWorld
    "libB").loadLibrary demoWorld "libA"

/-- Registry state obtained by loading `libB` first and then `libA` from
`demoWorldDistinct`: registration order is `libB`, `libA`, and the two
libraries report different class lists. -/
def stateBAdistinct : MultiLibraryClassLoader :=
  ((MultiLibraryClassLoader.init false).loadLibrary demoWorldDistinct
    "libB").loadLibrary demoWorldDistinct "libA"

/-- Registry state with only `libA` loaded from `demoWorld`. -/
def stateA : MultiLibraryClassLoader :=
  (MultiLibraryClassLoader.init false).loadLibrary demoWorld "libA"

/-- Transitivity of the lexicographic comparison. -/
theorem charListLt_trans : ∀ (la lb lc : List Char),
    charListLt la lb = true → charListLt lb lc = true →
    charListLt la lc = true := by
  intro la
  induction la with
  | nil =>
    intro lb lc h1 h2
    cases lb with
    | nil => exact h2
    | cons b bs =>
      cases lc with
      | nil => simp [charListLt] at h2
      | cons c cs => simp [charListLt]
  | cons a as ih =>
    intro lb lc h1 h2
    cases lb with
    | nil => simp [charListLt] at h1
    | cons b bs =>
      cases lc with
      | nil => simp [charListLt] at h2
      | cons c cs =>
        simp only [charListLt] at h1 h2 ⊢
        by_cases hab : a < b
        · by_cases hbc : b < c
          · simp [lt_trans hab hbc]
          · by_cases hcb : c < b
            · simp [hbc, hcb] at h2
            · have hbc' : b = c :=
                le_antisymm (not_lt.mp hcb) (not_lt.mp hbc)
              simp [hbc' ▸ hab]
        · by_cases hba : b < a
          · simp [hab, hba] at h1
          · have hab' : a = b := le_antisymm (not_lt.mp hba) (not_lt.mp hab)
            subst hab'
            simp only [hab, if_neg, lt_irrefl, if_false] at h1
            by_cases hac : a < c
            · simp [hac]
            · by_cases hca : c < a
              · simp [hac, hca] at h2
              · simp only [hac, if_neg, hca, if_false]
                simp only [hac, hca, if_false] at h2
                simpa using ih bs cs (by simpa using h1) (by simpa using h2)

/-- Antisymmetry of the lexicographic comparison: lists unrelated in both
directions are equal. -/
theorem charListLt_false_eq : ∀ (la lb : List Char),
    charListLt la lb = false → charListLt lb la = false → la = lb := by
  intro la
  induction la with
  | nil =>
    intro lb h1 _
    cases lb with
    | nil => rfl
    | cons b bs => simp [charListLt] at h1
  | cons a as ih =>
    intro lb h1 h2
    cases lb with
    | nil => simp [charListLt] at h2
    | cons b bs =>
      simp only [charListLt] at h1 h2
      by_cases hab : a < b
      · simp [hab] at h1
      · by_cases hba : b < a
        · simp [hab, hba] at h2
        · have hab' : a = b := le_antisymm (not_lt.mp hba) (not_lt.mp hab)
          subst hab'
          simp only [lt_irrefl, if_false] at h1 h2
          rw [ih bs (by simpa using h1) (by simpa using h2)]

/-- Transitivity of `strLt`. -/
theorem strLt_trans (a b c : String) (h1 : strLt a b = true)
    (h2 : strLt b c = true) : strLt a c = true :=
  charListLt_trans a.data b.data c.data h1 h2

/-- Totality of `strLt`: distinct strings compare in one direction. -/
theorem strLt_of_not_strLt (a b : String) (h1 : strLt a b = false)
    (hne : a ≠ b) : strLt b a = true := by
  by_cases h2 : strLt b a = true
  · exact h2
  · exfalso
    apply hne
    have hdata : a.data = b.data :=
      charListLt_false_eq a.data b.data h1 (by simpa using h2)
    cases a
    cases b
    exact congrArg String.mk hdata

/-- Keys of a map after `mapInsert` are the inserted key or old keys. -/
theorem mem_keys_mapInsert (path : String) (l : ClassLoader) :
    ∀ (es : List (String × ClassLoader)) (x : String),
      x ∈ (mapInsert path l es).map Prod.fst →
      x = path ∨ x ∈ es.map Prod.fst := by
  intro es
  induction es with
  | nil =>
    intro x hx
    simp [mapInsert] at hx
    exact Or.inl hx
  | cons e rest ih =>
    obtain ⟨k, v⟩ := e
    intro x hx
    by_cases h1 : strLt path k = true
    · simp [mapInsert, h1] at hx
      rcases hx with h | h | h
      · exact Or.inl h
      · exact Or.inr (by simp [h])
      · exact Or.inr (by simp [h])
    · by_cases h2 : path = k
      · subst h2
        simp [mapInsert, h1] at hx
        rcases hx with h | h
        · exact Or.inr (by simp [h])
        · exact Or.inr (by simp [h])
      · simp [mapInsert, h1, h2] at hx
        rcases hx with h | h
        · exact Or.inr (by simp [h])
        · rcases ih x (by simpa using h) with h' | h'
          · exact Or.inl h'
          · exact Or.inr (by simp [h'])

/-- Invariant of the `std::map` representation: `mapInsert` preserves strictly
ascending keys. -/
theorem keys_mapInsert_sorted (path : String) (l : ClassLoader) :
    ∀ (es : List (String × ClassLoader)),
      (es.map Prod.fst).Pairwise (fun a b => strLt a b = true) →
      ((mapInsert path l es).map Prod.fst).Pairwise
        (fun a b => strLt a b = true) := by
  intro es
  induction es with
  | nil =>
    intro _
    simp [mapInsert]
  | cons e rest ih =>
    obtain ⟨k, v⟩ := e
    intro hs
    simp only [List.map_cons, List.pairwise_cons] at hs
    obtain ⟨hk, hrest⟩ := hs
    by_cases h1 : strLt path k = true
    · simp only [mapInsert, if_pos h1, List.map_cons, List.pairwise_cons]
      refine ⟨?_, ?_, hrest⟩
      · intro y hy
        rcases List.mem_cons.mp hy with hy | hy
        · exact hy ▸ h1
        · exact strLt_trans path k y h1 (hk y hy)
      · exact hk
    · by_cases h2 : path = k
      · simp only [mapInsert, if_neg h1, if_pos h2, List.map_cons,
          List.pairwise_cons]
        exact ⟨hk, hrest⟩
      · have hkp : strLt k path = true :=
          strLt_of_not_strLt path k (by simpa using h1) h2
        simp only [mapInsert, if_neg h1, if_neg h2, List.map_cons,
          List.pairwise_cons]
        refine ⟨?_, ih hrest⟩
        intro y hy
        rcases mem_keys_mapInsert path l rest y hy with h | h
        · exact h ▸ hkp
        · exact hk y h

/-- Invariant: `loadLibrary` keeps the keys of `active_class_loaders_` in
strictly ascending lexicographic order, so the map-iteration order used by
`getAllAvailableClassLoaders` is always ascending library-path order. -/
theorem loadLibrary_keys_sorted (w : LibraryWorld)
    (s : MultiLibraryClassLoader) (path : String)
    (h : (s.active_class_loaders.map Prod.fst).Pairwise
      (fun a b => strLt a b = true)) :
    (((s.loadLibrary w path).active_class_loaders).map Prod.fst).Pairwise
      (fun a b => strLt a b = true) := by
  unfold MultiLibraryClassLoader.loadLibrary
  split
  · exact h
  · exact keys_mapInsert_sorted path _ _ h

/-- Lookup in an association list succeeds exactly on its keys. -/
theorem lookup_isSome_iff_mem_keys (q : String) :
    ∀ (es : List (String × ClassLoader)),
      (es.lookup q).isSome = true ↔ q ∈ es.map Prod.fst := by
  intro es
  induction es with
  | nil => simp [List.lookup]
  | cons e rest ih =>
    obtain ⟨k, v⟩ := e
    by_cases h : q = k
    · simp [List.lookup, h]
    · have hb : (q == k) = false := by simp [h]
      simp [List.lookup, hb, h, ih]

/-- Appending-fold form of the `getAvailableClasses` accumulation loop. -/
theorem foldl_append_flatten (f : ClassLoader → List String) :
    ∀ (ls : List ClassLoader) (acc : List String),
      ls.foldl (fun a cur => a ++ f cur) acc = acc ++ (ls.map f).flatten := by
  intro ls
  induction ls with
  | nil => intro acc; simp
  | cons current rest ih =>
    intro acc
    simp [List.foldl_cons, ih, List.append_assoc]

/-- C5: for every registry state, capability and class name,
`isClassAvailable(class_name)` returns true if and only if `class_name` is an
element of the sequence returned by `getAvailableClasses()` for the same
capability. -/
theorem c5_isClassAvailable_iff_mem_getAvailableClasses
    (s : MultiLibraryClassLoader) (capability className : String) :
    s.isClassAvailable capability className = true ↔
      className ∈ s.getAvailableClasses capability := by
  simp [MultiLibraryClassLoader.isClassAvailable, List.elem_iff]

/-- C6 (amended): for every registry state, `getAvailableClasses()` equals the
concatenation, in the map's iteration order (ascending library-path order,
see `loadLibrary_keys_sorted`), of each registered loader's class list for the
capability; duplicates across libraries are preserved, not deduplicated. -/
theorem c6_getAvailableClasses_concat_iteration_order
    (s : MultiLibraryClassLoader) (capability : String) :
    s.getAvailableClasses capability =
      (s.active_class_loaders.map
        (fun e => ClassLoader.getAvailableClasses e.2 capability)).flatten := by
  unfold MultiLibraryClassLoader.getAvailableClasses
  rw [foldl_append_flatten]
  simp only [List.nil_append,
    MultiLibraryClassLoader.getAllAvailableClassLoaders, List.map_map]
  rfl

/-- C6 counterexample: loading `libB` (class list `[X]`) and then `libA`
(class list `[Y]`) gives `getAvailableClasses() = [Y, X]`, the ascending
key-order concatenation, not the registration-order concatenation `[X, Y]`. -/
theorem c6_counterexample :
    stateBAdistinct.getAvailableClasses "base" ≠ ["X", "Y"] ∧
      stateBAdistinct.getAvailableClasses "base" = ["Y", "X"] := by
  decide

/-- C10: for every registry state and library identifier,
`isLibraryAvailable(library_path)` returns true if and only if `library_path`
is an element of `getRegisteredLibraries()`, i.e. iff it is a key of
`active_class_loaders_`. -/
theorem c10_isLibraryAvailable_iff_registered
    (s : MultiLibraryClassLoader) (library_path : String) :
    s.isLibraryAvailable library_path = true ↔
      library_path ∈ s.getRegisteredLibraries := by
  unfold MultiLibraryClassLoader.isLibraryAvailable
    MultiLibraryClassLoader.getRegisteredLibraries
    MultiLibraryClassLoader.getClassLoaderForLibrary
  exact lookup_isSome_iff_mem_keys library_path s.active_class_loaders

/-- C7: for every registry state and capability,
`getAvailableClassesForLibrary(library_path)` returns the empty sequence (and
does not fail) when `library_path` is not registered, and returns exactly the
registered loader's class list otherwise. -/
theorem c7_getAvailableClassesForLibrary_spec
    (s : MultiLibraryClassLoader) (capability library_path : String) :
    (library_path ∉ s.getRegisteredLibraries →
      s.getAvailableClassesForLibrary capability library_path = []) ∧
    (∀ l : ClassLoader, s.getClassLoaderForLibrary library_path = some l →
      s.getAvailableClassesForLibrary capability library_path =
        l.getAvailableClasses capability) := by
  constructor
  · intro hmem
    have hnone : s.getClassLoaderForLibrary library_path = none := by
      by_contra hne
      have hsome : (s.getClassLoaderForLibrary library_path).isSome = true :=
        Option.ne_none_iff_isSome.mp hne
      exact hmem ((lookup_isSome_iff_mem_keys library_path
        s.active_class_loaders).mp hsome)
    simp [MultiLibraryClassLoader.getAvailableClassesForLibrary, hnone]
  · intro l hl
    simp [MultiLibraryClassLoader.getAvailableClassesForLibrary, hl]

/-- C7 witness: with only `libA` registered, enumeration for the unregistered
`libZ` is empty and enumeration for `libA` is its own class list. -/
theorem c7_witness :
    stateA.getAvailableClassesForLibrary "base" "libZ" = [] ∧
      stateA.getAvailableClassesForLibrary "base" "libA" =
        ClassLoader.getAvailableClasses ⟨"libA", [("base", ["X"])]⟩ "base" :=
  ⟨(c7_getAvailableClassesForLibrary_spec stateA "base" "libZ").1 (by decide),
    (c7_getAvailableClassesForLibrary_spec stateA "base" "libA").2
      ⟨"libA", [("base", ["X"])]⟩ (by decide)⟩

/-- The managed scan loop returns the instance of the first loader found by
`List.find?` over its traversal order. -/
theorem createInstanceLoop_find (capability className : String) :
    ∀ (ls : List ClassLoader) (l : ClassLoader),
      ls.find? (fun cur => cur.isClassAvailable capability className) =
        some l →
      createInstanceLoop capability className ls =
        Except.ok ⟨l.libraryPath, className, true⟩ := by
  intro ls
  induction ls with
  | nil =>
    intro l h
    simp at h
  | cons current rest ih =>
    intro l h
    by_cases hc : current.isClassAvailable capability className = true
    · simp only [List.find?_cons, hc, cond_true] at h
      have hl : current = l := Option.some.inj h
      subst hl
      simp [createInstanceLoop, hc, ClassLoader.createInstance]
    · have hc' : current.isClassAvailable capability className = false := by
        simpa using hc
      simp only [List.find?_cons, hc', cond_false] at h
      simp [createInstanceLoop, hc', ih l h]

/-- The managed scan loop throws `CreateClassException` when no loader in the
vector reports the class. -/
theorem createInstanceLoop_none (capability className : String) :
    ∀ ls : List ClassLoader,
      ls.all (fun cur => !(cur.isClassAvailable capability className)) =
        true →
      createInstanceLoop capability className ls =
        Except.error (PluginError.ClassNotFoundError
          ("MultiLibraryClassLoader: Could not create class of type " ++
            className ++ " as no class loader exists.")) := by
  intro ls
  induction ls with
  | nil =>
    intro _
    rfl
  | cons current rest ih =>
    intro h
    have h' : current.isClassAvailable capability className = false ∧
        rest.all (fun cur => !(cur.isClassAvailable capability className)) =
          true := by
      simpa using h
    simp [createInstanceLoop, h'.1, ih h'.2]

/-- The unmanaged scan loop throws `CreateClassException` when no loader in
the vector reports the class. -/
theorem createUnmanagedInstanceLoop_none (capability className : String) :
    ∀ ls : List ClassLoader,
      ls.all (fun cur => !(cur.isClassAvailable capability className)) =
        true →
      createUnmanagedInstanceLoop capability className ls =
        Except.error (PluginError.ClassNotFoundError
          ("MultiLibraryClassLoader: Could not create class of type " ++
            className)) := by
  intro ls
  induction ls with
  | nil =>
    intro _
    rfl
  | cons current rest ih =>
    intro h
    have h' : current.isClassAvailable capability className = false ∧
        rest.all (fun cur => !(cur.isClassAvailable capability className)) =
          true := by
      simpa using h
    simp [createUnmanagedInstanceLoop, h'.1, ih h'.2]

/-- C1 (amended): `createInstance(class_name)` without an explicit library
identifier scans the loaders in the registry's map-iteration order (ascending
library-path order, see `loadLibrary_keys_sorted`) and returns the instance of
the first loader in that order that reports the class available under the
given base capability. -/
theorem c1_first_match_in_iteration_order (s : MultiLibraryClassLoader)
    (capability className : String) (l : ClassLoader)
    (h : s.getAllAvailableClassLoaders.find?
      (fun cur => cur.isClassAvailable capability className) = some l) :
    s.createInstance capability className =
      Except.ok ⟨l.libraryPath, className, true⟩ :=
  createInstanceLoop_find capability className s.getAllAvailableClassLoaders
    l h

/-- C1 witness: with `libA` loaded and then `libB`, both providing class `X`
under capability `base`, `createInstance("X")` returns the instance produced
by `libA`, the first match. -/
theorem c1_witness :
    stateAB.createInstance "base" "X" =
      Except.ok ⟨"libA", "X", true⟩ :=
  c1_first_match_in_iteration_order stateAB "base" "X"
    ⟨"libA", [("base", ["X"])]⟩ (by decide)

/-- C1 counterexample: loading `libB` first and then `libA`, both providing
class `X`, `createInstance("X")` does not return the instance of the
first-registered library `libB`; it returns the instance of `libA`, the first
key in map-iteration order.  The final conjunct shows the root cause: the two
registration orders produce identical registry states, so no function of the
state can scan in registration order. -/
theorem c1_counterexample :
    stateBA.createInstance "base" "X" ≠ Except.ok ⟨"libB", "X", true⟩ ∧
      stateBA.createInstance "base" "X" = Except.ok ⟨"libA", "X", true⟩ ∧
      stateBA = stateAB := by
  decide

/-- C4: when no registered loader reports the class available under the given
base capability, `createInstance(class_name)` and
`createUnmanagedInstance(class_name)` without an explicit identifier fail with
`ClassNotFoundError` (the `CreateClassException` of header lines 75 and
111). -/
theorem c4_no_loader_class_not_found (s : MultiLibraryClassLoader)
    (capability className : String)
    (h : s.getAllAvailableClassLoaders.all
      (fun cur => !(cur.isClassAvailable capability className)) = true) :
    s.createInstance capability className =
      Except.error (PluginError.ClassNotFoundError
        ("MultiLibraryClassLoader: Could not create class of type " ++
          className ++ " as no class loader exists.")) ∧
    s.createUnmanagedInstance capability className =
      Except.error (PluginError.ClassNotFoundError
        ("MultiLibraryClassLoader: Could not create class of type " ++
          className)) :=
  ⟨createInstanceLoop_none capability className
      s.getAllAvailableClassLoaders h,
    createUnmanagedInstanceLoop_none capability className
      s.getAllAvailableClassLoaders h⟩

/-- C4 witness: with `libA` registered (providing only `X` under `base`),
creating the unavailable class `Zed` fails with `ClassNotFoundError` on both
creation paths. -/
theorem c4_witness :
    stateA.createInstance "base" "Zed" =
      Except.error (PluginError.ClassNotFoundError
        ("MultiLibraryClassLoader: Could not create class of type " ++
          "Zed" ++ " as no class loader exists.")) ∧
    stateA.createUnmanagedInstance "base" "Zed" =
      Except.error (PluginError.ClassNotFoundError
        ("MultiLibraryClassLoader: Could not create class of type " ++
          "Zed")) :=
  c4_no_loader_class_not_found stateA "base" "Zed" (by decide)

/-- C2: evaluation of the code at the failing input.  With no library
registered, `createInstance(class_name, library_path)` and
`createUnmanagedInstance(class_name, library_path)` dereference the NULL
result of `getClassLoaderForLibrary` (header lines 89 and 125) instead of
failing with `LibraryNotFoundError`. -/
theorem c2_null_dereference_on_unregistered_library :
    (MultiLibraryClassLoader.init false).createInstanceFromLibrary
        "base" "X" "/libA" =
      Except.error (PluginError.NullDereference
        "getClassLoaderForLibrary returned NULL and was dereferenced") ∧
    (MultiLibraryClassLoader.init false).createUnmanagedInstanceFromLibrary
        "base" "X" "/libA" =
      Except.error (PluginError.NullDereference
        "getClassLoaderForLibrary returned NULL and was dereferenced") := by
  decide

/-- C3 (amended): even with the on-demand flag enabled, `createInstance`
against an unregistered library identifier does not auto-load that library:
the NULL lookup result is dereferenced (the call fails), the registry is
unchanged, and `isLibraryAvailable` on that identifier stays false. -/
theorem c3_no_autoload_on_unregistered (s : MultiLibraryClassLoader)
    (capability className library_path : String)
    (h : s.getClassLoaderForLibrary library_path = none) :
    (s.createInstanceFromLibraryRun capability className library_path).1 =
      Except.error (PluginError.NullDereference
        "getClassLoaderForLibrary returned NULL and was dereferenced") ∧
    (s.createInstanceFromLibraryRun capability className library_path).2 =
      s ∧
    ((s.createInstanceFromLibraryRun capability className
        library_path).2).isLibraryAvailable library_path = false := by
  refine ⟨?_, rfl, ?_⟩
  · simp [MultiLibraryClassLoader.createInstanceFromLibraryRun,
      MultiLibraryClassLoader.createInstanceFromLibrary, h]
  · simp [MultiLibraryClassLoader.createInstanceFromLibraryRun,
      MultiLibraryClassLoader.isLibraryAvailable, h]

/-- C3 witness: a facade constructed with the on-demand flag enabled and an
empty registry; `createInstance("X", "/libA")` fails by NULL dereference,
leaves the registry empty, and `/libA` remains unavailable. -/
theorem c3_witness :
    ((MultiLibraryClassLoader.init true).createInstanceFromLibraryRun
        "base" "X" "/libA").1 =
      Except.error (PluginError.NullDereference
        "getClassLoaderForLibrary returned NULL and was dereferenced") ∧
    ((MultiLibraryClassLoader.init true).createInstanceFromLibraryRun
        "base" "X" "/libA").2 = MultiLibraryClassLoader.init true ∧
    (((MultiLibraryClassLoader.init true).createInstanceFromLibraryRun
        "base" "X" "/libA").2).isLibraryAvailable "/libA" = false :=
  c3_no_autoload_on_unregistered (MultiLibraryClassLoader.init true)
    "base" "X" "/libA" (by decide)

/-- C3 counterexample: the facade is constructed with the on-demand flag
enabled and `/libA` is unregistered, yet `createInstance("X", "/libA")` fails
(by NULL dereference) rather than auto-loading the library, and
`isLibraryAvailable("/libA")` stays false after the call — not true as the
claim requires. -/
theorem c3_counterexample :
    ((MultiLibraryClassLoader.init true).createInstanceFromLibraryRun
        "base" "X" "/libA").1 =
      Except.error (PluginError.NullDereference
        "getClassLoaderForLibrary returned NULL and was dereferenced") ∧
    ¬ (((MultiLibraryClassLoader.init true).createInstanceFromLibraryRun
        "base" "X" "/libA").2).isLibraryAvailable "/libA" = true := by
  decide

/-- C8: every creation call, managed or unmanaged, with or without an
explicit library identifier, leaves the registry exactly as it was when it
fails: the facade bodies (header lines 64-76, 86-90, 100-112, 122-126) never
write a member. -/
theorem c8_failed_creation_preserves_registry (s : MultiLibraryClassLoader)
    (capability className library_path : String) :
    (∀ e : PluginError,
      (s.createInstanceRun capability className).1 = Except.error e →
      (s.createInstanceRun capability className).2 = s) ∧
    (∀ e : PluginError,
      (s.createUnmanagedInstanceRun capability className).1 =
        Except.error e →
      (s.createUnmanagedInstanceRun capability className).2 = s) ∧
    (∀ e : PluginError,
      (s.createInstanceFromLibraryRun capability className library_path).1 =
        Except.error e →
      (s.createInstanceFromLibraryRun capability className
        library_path).2 = s) ∧
    (∀ e : PluginError,
      (s.createUnmanagedInstanceFromLibraryRun capability className
        library_path).1 = Except.error e →
      (s.createUnmanagedInstanceFromLibraryRun capability className
        library_path).2 = s) :=
  ⟨fun _ _ => rfl, fun _ _ => rfl, fun _ _ => rfl, fun _ _ => rfl⟩

/-- C8 witness: on an on-demand facade with an empty registry, all four
creation paths fail at concrete inputs and each leaves the registry equal to
the pre-call state. -/
theorem c8_witness :
    ((MultiLibraryClassLoader.init true).createInstanceRun "base" "X").2 =
      MultiLibraryClassLoader.init true ∧
    ((MultiLibraryClassLoader.init true).createUnmanagedInstanceRun
      "base" "X").2 = MultiLibraryClassLoader.init true ∧
    ((MultiLibraryClassLoader.init true).createInstanceFromLibraryRun
      "base" "X" "/libA").2 = MultiLibraryClassLoader.init true ∧
    ((MultiLibraryClassLoader.init true).createUnmanagedInstanceFromLibraryRun
      "base" "X" "/libA").2 = MultiLibraryClassLoader.init true := by
  obtain ⟨h1, h2, h3, h4⟩ := c8_failed_creation_preserves_registry
    (MultiLibraryClassLoader.init true) "base" "X" "/libA"
  exact ⟨h1 (PluginError.ClassNotFoundError
      ("MultiLibraryClassLoader: Could not create class of type " ++ "X" ++
        " as no class loader exists.")) (by decide),
    h2 (PluginError.ClassNotFoundError
      ("MultiLibraryClassLoader: Could not create class of type " ++ "X"))
      (by decide),
    h3 (PluginError.NullDereference
      "getClassLoaderForLibrary returned NULL and was dereferenced")
      (by decide),
    h4 (PluginError.NullDereference
      "getClassLoaderForLibrary returned NULL and was dereferenced")
      (by decide)⟩

end plugins
